import Mathlib

/-!
# Verification of the relevance-scoring engine

Shallow embedding of the multi-signal "should-the-assistant-respond"
relevance scoring engine (backend/utils/decider): the four fast analyzers
(NameMentionHeuristic, PronounSyntaxHeuristic, ConversationalFlowAnalyzer,
SemanticSimilarityModule), the LLM meta-judge's local logic, and the
RelevanceOrchestrator's fusion and judge-decision logic.

Modelling conventions:
* JS numbers are modelled as exact rationals (`ℚ`); every numeric literal in
  the source is exactly representable, and no claim hinges on binary
  floating-point rounding artifacts.
* JS strings are Lean `String`s; regular-expression tests are evaluated by a
  small backtracking matcher (`RE`, `reTest`, `reFindAll`) whose constructors
  mirror the constructs actually used by the source patterns (character
  classes, literals, alternation, greedy `*`/`+` over classes, `?`, `\b`,
  `^`, `$`).  Alternatives and greedy repetitions are tried in JS priority
  order, so the first match found agrees with the JS engine on these
  patterns.
* `x || d` on a numeric JS value is `jsOr x d` (0 is falsy).
* The network call of the LLM meta-judge and the `JSON.parse` of its raw
  response text are external effects; they enter the embedding as an
  explicit oracle argument (`LlmNet`).
* `console.log`/`console.warn` calls and the purely diagnostic `details`
  fields of results are omitted: no claim mentions them and they do not feed
  back into any score.
-/

/- The Batteries rational-number operations are `@[irreducible]` by
default, which blocks `decide`-style evaluation of concrete scores; they
are proof-irrelevant computations, so restore the default transparency. -/
set_option allowUnsafeReducibility true in
attribute [semireducible] Rat.ofScientific Rat.add Rat.sub Rat.mul Rat.inv

/-! ## JS string helpers -/

/-- JS `\w`: ASCII letters, digits and underscore. -/
def isWordChar (c : Char) : Bool :=
  c.isAlpha || c.isDigit || c = '_'

/-- JS `\s` (for the ASCII inputs relevant here): blank, tab, newline,
carriage return, vertical tab, form feed. -/
def isWsChar (c : Char) : Bool :=
  c = ' ' || c = '\t' || c = '\n' || c = '\r' || c = '\x0b' || c = '\x0c'

/-- Does `hay` start with `needle`? -/
def startsWithChars : List Char → List Char → Bool
  | _, [] => true
  | [], _ :: _ => false
  | c :: cs, d :: ds => c = d && startsWithChars cs ds

/-- Substring test on char lists (JS `String.prototype.includes`). -/
def containsChars : List Char → List Char → Bool
  | hay, needle =>
    startsWithChars hay needle ||
      match hay with
      | [] => false
      | _ :: t => containsChars t needle

/-- JS `hay.includes(needle)`. -/
def strContains (hay needle : String) : Bool :=
  containsChars hay.data needle.data

/-- JS `String.prototype.toLowerCase` for the ASCII inputs relevant here
(character-wise lowering). -/
def jsToLower (s : String) : String :=
  ⟨s.data.map Char.toLower⟩

/-- JS `String.prototype.trim` (strip leading/trailing whitespace). -/
def jsTrim (s : String) : String :=
  ⟨((s.data.dropWhile (isWsChar ·)).reverse.dropWhile (isWsChar ·)).reverse⟩

/-- JS `x || d` for a numeric `x`: `x` unless `x` is falsy (`0`). -/
def jsOr (x d : ℚ) : ℚ := if x = 0 then d else x

/-- Split on runs of whitespace, with an accumulator holding the current
word reversed. -/
def splitWsAux : List Char → List Char → List (List Char)
  | [], acc => if acc.isEmpty then [] else [acc.reverse]
  | c :: cs, acc =>
    if isWsChar c then
      if acc.isEmpty then splitWsAux cs []
      else acc.reverse :: splitWsAux cs []
    else splitWsAux cs (c :: acc)

/-- Split a char list on runs of whitespace, dropping empty chunks
(the JS `split(/\s+/)` can additionally produce an empty leading/trailing
chunk, but every use site filters by a positive length, so empty chunks
never survive). -/
def splitWsChars (l : List Char) : List (List Char) :=
  splitWsAux l []

/-- Deduplicate keeping the first occurrence (JS `Set` insertion order):
keep the head and strip its later duplicates from the deduplicated tail. -/
def dedupFirst : List String → List String
  | [] => []
  | x :: xs => x :: (dedupFirst xs).filter (· ≠ x)

/-! ## A small backtracking regular-expression matcher

Constructors cover exactly the constructs used by the source patterns.
Repetition is only over single-character classes, as in the source. -/

inductive RE where
  /-- empty pattern -/
  | eps : RE
  /-- one character of a class -/
  | cls : (Char → Bool) → RE
  /-- concatenation -/
  | cat : RE → RE → RE
  /-- alternation, left preferred (JS leftmost alternative) -/
  | alt : RE → RE → RE
  /-- greedy `c*` over a class -/
  | many : (Char → Bool) → RE
  /-- greedy `c+` over a class -/
  | many1 : (Char → Bool) → RE
  /-- greedy `r?` -/
  | opt : RE → RE
  /-- word boundary `\b` -/
  | wb : RE
  /-- start of input `^` (no multiline flag anywhere in the source) -/
  | bos : RE
  /-- end of input `$` -/
  | eos : RE

/-- All ways to consume a prefix of `p`-characters, longest (greedy) first.
Returns `(consumed, previous character, rest)`. -/
def manySplits (p : Char → Bool) : Option Char → List Char →
    List (List Char × Option Char × List Char)
  | prev, [] => [([], prev, [])]
  | prev, c :: cs =>
    if p c then
      ((manySplits p (some c) cs).map fun t => (c :: t.1, t.2.1, t.2.2)) ++
        [([], prev, c :: cs)]
    else [([], prev, c :: cs)]

/-- Run a pattern at the current position.  `prev` is the character just
before the position (for `\b` and `^`).  Results `(consumed, newPrev, rest)`
are produced in JS backtracking priority order. -/
def reRun : RE → Option Char → List Char →
    List (List Char × Option Char × List Char)
  | .eps, prev, l => [([], prev, l)]
  | .cls p, _, l =>
    match l with
    | [] => []
    | c :: cs => if p c then [([c], some c, cs)] else []
  | .cat a b, prev, l =>
    (reRun a prev l).flatMap fun t =>
      (reRun b t.2.1 t.2.2).map fun u => (t.1 ++ u.1, u.2.1, u.2.2)
  | .alt a b, prev, l => reRun a prev l ++ reRun b prev l
  | .many p, prev, l => manySplits p prev l
  | .many1 p, _, l =>
    match l with
    | [] => []
    | c :: cs =>
      if p c then (manySplits p (some c) cs).map fun t => (c :: t.1, t.2.1, t.2.2)
      else []
  | .opt a, prev, l => reRun a prev l ++ [([], prev, l)]
  | .wb, prev, l =>
    let pw := match prev with | some c => isWordChar c | none => false
    let nw := match l with | c :: _ => isWordChar c | [] => false
    if pw ≠ nw then [([], prev, l)] else []
  | .bos, prev, l => if prev = none then [([], prev, l)] else []
  | .eos, prev, l => if l = [] then [([], prev, l)] else []

/-- Is there a match starting at this position or later? -/
def searchFrom (r : RE) : Option Char → List Char → Bool
  | prev, [] => !(reRun r prev []).isEmpty
  | prev, c :: cs => !(reRun r prev (c :: cs)).isEmpty || searchFrom r (some c) cs

/-- JS `pattern.test(s)` (unanchored search). -/
def reTest (r : RE) (s : String) : Bool :=
  searchFrom r none s.data

/-- First match at this position or later: `(consumed, newPrev, rest)`. -/
def scanFirst (r : RE) : Option Char → List Char →
    Option (List Char × Option Char × List Char)
  | prev, [] => (reRun r prev []).head?
  | prev, c :: cs =>
    match (reRun r prev (c :: cs)).head? with
    | some m => some m
    | none => scanFirst r (some c) cs

/-- All non-overlapping matches left to right (JS global `match`).  `fuel`
bounds the iteration; an empty match advances by one character as JS does. -/
def globalMatches (r : RE) : ℕ → Option Char → List Char → List (List Char)
  | 0, _, _ => []
  | fuel + 1, prev, l =>
    match scanFirst r prev l with
    | none => []
    | some (t, p2, rest) =>
      if t.isEmpty then
        match rest with
        | [] => [t]
        | c :: cs => t :: globalMatches r fuel (some c) cs
      else t :: globalMatches r fuel p2 rest

/-- JS `s.match(pattern-with-g-flag) || []`, as a list of matched substrings. -/
def reFindAll (r : RE) (s : String) : List String :=
  (globalMatches r (s.data.length + 1) none s.data).map fun t => ⟨t⟩

/-- Literal string pattern. -/
def RE.lit (s : String) : RE :=
  s.data.foldr (fun c r => .cat (.cls (· = c)) r) .eps

/-- Case-insensitive literal (for patterns carrying the JS `i` flag). -/
def RE.litCI (s : String) : RE :=
  s.data.foldr (fun c r => .cat (.cls (fun d => d.toLower = c.toLower)) r) .eps

/-- Alternation of literal words, in source order. -/
def RE.words : List String → RE
  | [] => .eps
  | [w] => .lit w
  | w :: ws => .alt (.lit w) (RE.words ws)

/-- Concatenation of a list of patterns, in order. -/
def RE.seqs : List RE → RE
  | [] => .eps
  | [r] => r
  | r :: rs => .cat r (RE.seqs rs)

/-- `\s+` -/
def ws1 : RE := .many1 (isWsChar ·)

/-- `[,\s]+` -/
def commaWs1 : RE := .many1 (fun c => c = ',' || isWsChar c)

/-- `\w+` -/
def word1 : RE := .many1 (isWordChar ·)

/-- JS `.` (any character except a line terminator). -/
def dotCls (c : Char) : Bool := c ≠ '\n' && c ≠ '\r'

/-! ## Data model -/

/-- A conversation message: `{role, content}` (`role` is the JS string
`"user"` or `"assistant"`). -/
structure Msg where
  role : String
  content : String
deriving DecidableEq

/-- An analyzer result `{score, reasoning, confidence}`; only the
SemanticSimilarityModule additionally emits `adjustedWeight` (absence of
the field is `none`). -/
structure AnalyzerResult where
  score : ℚ
  reasoning : String
  confidence : ℚ
  adjustedWeight? : Option ℚ := none
deriving DecidableEq

/-- `messages[messages.length - 1]` (the conversation is non-empty at every
use site guarded by the `length === 0` check). -/
def lastMsg? (messages : List Msg) : Option Msg :=
  messages.getLast?

/-! ## NameMentionHeuristic (Lexical Address Analyzer)

Source: `nameMentionHeuristic.js`.  Default configuration: `aiName "Mirai"`,
`aliases ['AI', 'Assistant', 'Bot']`. -/

namespace NameMentionHeuristic

def defaultAliases : List String := ["AI", "Assistant", "Bot"]

/-- `isThirdPersonReference(content)`: third-person patterns built from the
lowercased assistant name, in source order: possessive
`` `${aiName}'s\s+\w+` ``, descriptive `` `${aiName}\s+${word}\b` ``,
acknowledgment `` `^${ack}[,\s]+${aiName}\b` ``, and discussion
`` `\b${word}\s+${aiName}\b` ``. -/
def isThirdPersonReference (aiName0 : String) (content : String) : Bool :=
  let aiName := jsToLower aiName0
  reTest (.seqs [.lit aiName, .lit "'s", ws1, word1]) content ||
  (["is", "was", "has", "had", "been", "seems", "looks", "sounds", "helps",
    "helped", "works", "worked"].any fun w =>
      reTest (.seqs [.lit aiName, ws1, .lit w, .wb]) content) ||
  (["yeah", "yes", "well", "so"].any fun ack =>
      reTest (.seqs [.bos, .lit ack, commaWs1, .lit aiName, .wb]) content) ||
  (["about", "with", "using", "that", "this"].any fun w =>
      reTest (.seqs [.wb, .lit w, ws1, .lit aiName, .wb]) content)

/-- `isDirectAddress(content)`: greeting `` `^${greeting}[,\s]+${aiName}\b` ``,
punctuation `` `\b${aiName}\s*[,:]+` ``, imperative/question/action words
adjacent to the name, and `` `\b(ask|tell)\s+${aiName}\b` ``. -/
def isDirectAddress (aiName0 : String) (content : String) : Bool :=
  let aiName := jsToLower aiName0
  (["hey", "hi", "hello", "yo"].any fun g =>
      reTest (.seqs [.bos, .lit g, commaWs1, .lit aiName, .wb]) content) ||
  reTest (.seqs [.wb, .lit aiName, .many (isWsChar ·),
    .many1 (fun c => c = ',' || c = ':')]) content ||
  (["can", "could", "would", "will", "please", "help"].any fun w =>
      reTest (.seqs [.wb, .lit aiName, commaWs1, .lit w, .wb]) content) ||
  (["what", "how", "why", "when", "where", "who"].any fun q =>
      reTest (.seqs [.wb, .lit aiName, commaWs1, .lit q, .wb]) content) ||
  (["tell", "show", "give", "find", "get", "explain", "describe"].any fun a =>
      reTest (.seqs [.wb, .alt (.lit "ask") (.lit "tell"), ws1, .lit aiName, .wb])
          content ||
        reTest (.seqs [.wb, .lit aiName, commaWs1, .lit a, .wb]) content)

/-- `hasAddressPatterns(content)`: the fixed pattern list. -/
def hasAddressPatterns (content : String) : Bool :=
  [RE.seqs [.bos, .lit "hey", .cls (fun c => isWsChar c || c = ',')],
   RE.seqs [.bos, .lit "hello", .cls (fun c => isWsChar c || c = ',')],
   RE.seqs [.bos, .lit "hi", .cls (fun c => isWsChar c || c = ',')],
   RE.seqs [.wb, .lit "hey", ws1, .alt (.lit "there") (.lit "you"), .wb],
   RE.seqs [.wb, .lit "can", ws1, .lit "you", .wb],
   RE.seqs [.wb, .lit "would", ws1, .lit "you", .wb],
   RE.seqs [.wb, .lit "could", ws1, .lit "you", .wb],
   RE.seqs [.wb, .lit "will", ws1, .lit "you", .wb],
   RE.seqs [.wb, .lit "please", ws1]].any (reTest · content)

/-- `analyze(messages)`. -/
def analyze (aiName : String) (aliases : List String) (messages : List Msg) :
    AnalyzerResult :=
  match lastMsg? messages with
  | none => { score := 0, reasoning := "No messages to analyze", confidence := 1 }
  | some lastMessage =>
    if lastMessage.role ≠ "user" then
      { score := 0, reasoning := "Last message is not from user", confidence := 1 }
    else
      let content := jsToLower lastMessage.content
      let src : ℚ × String × ℚ :=
        if isThirdPersonReference aiName content then
          (1, "Third-person reference to " ++ aiName ++
            " detected (talking about, not to)", 0.9)
        else if strContains content (jsToLower aiName) then
          if isDirectAddress aiName content then
            (10, "Direct address to AI name \"" ++ aiName ++ "\" detected", 1)
          else
            (3, "AI name \"" ++ aiName ++ "\" mentioned but context unclear", 0.6)
        else if aliases.any fun a => strContains content (jsToLower a) then
          let foundAlias :=
            (aliases.find? fun a => strContains content (jsToLower a)).getD ""
          if isDirectAddress aiName content then
            (8, "Direct address using AI alias \"" ++ foundAlias ++ "\"", 1)
          else
            (2, "AI alias \"" ++ foundAlias ++ "\" mentioned but unclear context",
              0.6)
        else if hasAddressPatterns content then
          (6, "Potential address pattern detected (hey, hello, etc.)", 0.7)
        else
          (0, "No name mentions or address patterns found", 1)
      { score := max 0 (min 10 src.1), reasoning := src.2.1,
        confidence := src.2.2 }

end NameMentionHeuristic

/-- Alternation of `\s+word` branches (a JS group like `(\s+is|\s+are|…)`). -/
def wsAlts : List String → RE
  | [] => .eps
  | [w] => .cat ws1 (.lit w)
  | w :: ws => .alt (.cat ws1 (.lit w)) (wsAlts ws)

/-- Alternation of `\bword\b` branches (JS `\ba\b|\bb\b|…`). -/
def anyWordB : List String → RE
  | [] => .eps
  | [w] => .seqs [.wb, .lit w, .wb]
  | w :: ws => .alt (.seqs [.wb, .lit w, .wb]) (anyWordB ws)

/-! ## PronounSyntaxHeuristic (Syntax/Pronoun Analyzer)

Source: `pronounSyntaxHeuristic.js`. -/

namespace PronounSyntaxHeuristic

/-- Direct address pronoun patterns, with their fixed scores and
descriptions, in source order. -/
def directAddressPatterns : List (RE × ℚ × String) :=
  [(.seqs [.wb, .lit "you", ws1,
      .words ["are", "were", "can", "could", "will", "would", "should",
        "might", "must", "need", "have", "had"], .wb], 9,
    "Direct 'you' + verb pattern"),
   (.seqs [.wb, .lit "can", ws1, .lit "you", .wb], 9,
    "Direct question pattern 'can you'"),
   (.seqs [.wb, .lit "would", ws1, .lit "you", .wb], 9,
    "Direct request pattern 'would you'"),
   (.seqs [.wb, .lit "could", ws1, .lit "you", .wb], 9,
    "Direct request pattern 'could you'"),
   (.seqs [.wb, .lit "will", ws1, .lit "you", .wb], 8,
    "Direct question pattern 'will you'"),
   (.seqs [.wb, .lit "do", ws1, .lit "you", .wb], 8,
    "Direct question pattern 'do you'"),
   (.seqs [.wb, .lit "did", ws1, .lit "you", .wb], 8,
    "Direct question pattern 'did you'"),
   (.seqs [.wb, .lit "have", ws1, .lit "you", .wb], 8,
    "Direct question pattern 'have you'")]

/-- Question-opening patterns, in source order. -/
def questionPatterns : List (RE × ℚ × String) :=
  [(.seqs [.bos, .lit "what",
      wsAlts ["is", "are", "do", "did", "would", "should"], .wb], 7,
    "Question starting with 'what'"),
   (.seqs [.bos, .lit "how",
      wsAlts ["do", "did", "can", "would", "should", "is", "are"], .wb], 7,
    "Question starting with 'how'"),
   (.seqs [.bos, .lit "where", wsAlts ["is", "are", "do", "did", "can"], .wb], 7,
    "Question starting with 'where'"),
   (.seqs [.bos, .lit "when",
      wsAlts ["is", "are", "do", "did", "will", "would"], .wb], 7,
    "Question starting with 'when'"),
   (.seqs [.bos, .lit "why",
      wsAlts ["is", "are", "do", "did", "would", "should"], .wb], 7,
    "Question starting with 'why'"),
   (.seqs [.lit "?", .eos], 5, "Message ends with question mark")]

/-- Imperative/command patterns, in source order. -/
def imperativePatterns : List (RE × ℚ × String) :=
  [(.seqs [.bos, .opt (.cat (.lit "please") ws1),
      .words ["tell", "show", "give", "find", "get", "help", "explain",
        "describe"], .wb], 8, "Imperative command pattern"),
   (.seqs [.bos, .opt (.cat (.lit "please") ws1),
      .words ["check", "look", "search", "calculate", "create", "make"],
      .wb], 8, "Imperative action pattern"),
   (.seqs [.bos, .lit "please", ws1], 6,
    "Polite request starting with 'please'")]

/-- Conversational marker patterns, in source order. -/
def conversationalPatterns : List (RE × ℚ × String) :=
  [(.alt (.seqs [.wb, .lit "thank", .opt (.cls (· = 's')), .wb])
      (.seqs [.wb, .lit "thank", ws1, .lit "you", .wb]), 6,
    "Thank you pattern (suggests interaction)"),
   (anyWordB ["sorry", "apologies"], 5,
    "Apology pattern (suggests interaction)"),
   (anyWordB ["okay", "ok", "alright"], 4, "Acknowledgment pattern")]

/-- Conversational response patterns, in source order. -/
def responsePatterns : List (RE × ℚ × String) :=
  [(.seqs [.bos, .words ["maybe", "perhaps", "possibly", "probably"], .wb], 6,
    "Tentative response pattern"),
   (.seqs [.bos, .words ["well", "hmm", "uh", "um"], .wb], 5,
    "Conversational filler (thinking)"),
   (.seqs [.wb, .lit "but", ws1, .lit "i", ws1,
      .words ["don't", "can't", "won't"], .wb], 6,
    "Qualification/concern pattern"),
   (.seqs [.wb, .lit "i", ws1,
      .words ["think", "believe", "guess", "suppose"], .wb], 5,
    "Opinion/response pattern"),
   (.alt (.seqs [.wb, .lit "don't", ws1, .lit "know", .wb])
      (.seqs [.wb, .lit "not", ws1, .lit "sure", .wb]), 6,
    "Uncertainty response"),
   (.seqs [.wb, .lit "i", ws1,
      .words ["would", "could", "might", "should"], .wb], 5,
    "Conditional response")]

/-- All pattern categories concatenated, in source order. -/
def allPatterns : List (RE × ℚ × String) :=
  directAddressPatterns ++ questionPatterns ++ imperativePatterns ++
    conversationalPatterns ++ responsePatterns

/-- `hasThirdPersonIndicators(content)`. -/
def hasThirdPersonIndicators (content : String) : Bool :=
  [RE.seqs [.wb, .lit "he", ws1,
      .words ["is", "was", "will", "would", "can", "could", "should", "has",
        "had"], .wb],
   RE.seqs [.wb, .lit "she", ws1,
      .words ["is", "was", "will", "would", "can", "could", "should", "has",
        "had"], .wb],
   RE.seqs [.wb, .lit "they", ws1,
      .words ["are", "were", "will", "would", "can", "could", "should",
        "have", "had"], .wb],
   RE.seqs [.wb, .lit "it", ws1,
      .words ["is", "was", "will", "would", "can", "could", "should", "has",
        "had"], .wb],
   RE.seqs [.wb, .lit "his", ws1],
   RE.seqs [.wb, .lit "her", ws1],
   RE.seqs [.wb, .lit "their", ws1],
   RE.seqs [.wb, .lit "its", ws1],
   RE.seqs [.wb, .lit "about", ws1, .words ["him", "her", "them", "it"],
     .wb]].any (reTest · content)

/-- `calculateConfidence(matchedPatterns, content)`. -/
def calculateConfidence (matchedPatterns : List String) (content : String) :
    ℚ :=
  let confidence : ℚ := 0.7
  let confidence := if 1 < matchedPatterns.length then confidence + 0.2
    else confidence
  let confidence := if 20 < content.length then confidence + 0.1
    else confidence
  let confidence := if content.length < 10 then confidence - 0.2
    else confidence
  max 0.3 (min 1 confidence)

/-- `analyze(messages)`: all patterns are tested; the highest matched score
wins; otherwise third-person indicators give 1, else neutral 3. -/
def analyze (messages : List Msg) : AnalyzerResult :=
  match lastMsg? messages with
  | none => { score := 0, reasoning := "No messages to analyze", confidence := 1 }
  | some lastMessage =>
    if lastMessage.role ≠ "user" then
      { score := 0, reasoning := "Last message is not from user", confidence := 1 }
    else
      let content := jsToLower lastMessage.content
      let matched := allPatterns.filter fun p => reTest p.1 content
      let matchedPatterns := matched.map (·.2.2)
      let highestScore := (matched.map (·.2.1)).foldl max 0
      let src : ℚ × String × ℚ :=
        if 0 < matchedPatterns.length then
          (highestScore,
            "Detected patterns: " ++
              String.intercalate ", " (matchedPatterns.take 2),
            calculateConfidence matchedPatterns content)
        else if hasThirdPersonIndicators content then
          (1, "Third-person reference detected (likely not addressing AI)",
            0.8)
        else
          (3, "No clear pronoun/syntax patterns detected", 0.5)
      { score := max 0 (min 10 src.1), reasoning := src.2.1,
        confidence := src.2.2 }

end PronounSyntaxHeuristic

/-! ## ConversationalFlowAnalyzer (Conversation Flow Analyzer)

Source: `conversationalFlowAnalyzer.js`.  Default `maxHistoryLength 10`.
The source's `analyzeFlow` result is computed but never used by `analyze`
(dead code), so it is not modelled. -/

namespace ConversationalFlowAnalyzer

def maxHistoryLength : ℕ := 10

/-- JS `messages.slice(-n)`: the last `n` elements (all of them when the
list is shorter). -/
def takeLast (n : ℕ) (l : List Msg) : List Msg :=
  l.drop (l.length - n)

/-- `/\b(what|how|which|any|do you|would you|can you)\b/` tested on the
assistant's message. -/
def aiQuestionRE : RE :=
  .seqs [.wb, .words ["what", "how", "which", "any", "do you", "would you",
    "can you"], .wb]

/-- `strongFollowUpPatterns`, in source order. -/
def strongFollowUpPatterns : List RE :=
  [.seqs [.bos, .words ["yes", "yeah", "yep", "no", "nope", "maybe",
     "perhaps"], .wb],
   .seqs [.bos, .words ["i think", "i believe", "i guess", "i suppose"], .wb],
   .seqs [.bos, .words ["well", "hmm", "uh", "um"], .wb],
   .seqs [.wb, .words ["but", "however", "although", "though"], .wb],
   .alt (.seqs [.wb, .lit "don't know", .wb])
     (.seqs [.wb, .lit "not sure", .wb])]

/-- `generalFollowUpPatterns`, in source order. -/
def generalFollowUpPatterns : List RE :=
  [.seqs [.bos, .words ["thanks", "thank you", "ok", "okay", "alright"], .wb],
   .seqs [.bos, .words ["but", "however", "although", "though"], .wb],
   .seqs [.bos, .words ["and", "also", "additionally", "furthermore"], .wb],
   .seqs [.bos, .words ["wait", "hold on", "actually"], .wb],
   .seqs [.wb, .lit "that", .words ["'s", " is", " was"], .wb],
   .seqs [.wb, .lit "this", .wb],
   .seqs [.wb, .lit "your", ws1, .words ["answer", "response", "suggestion"],
     .wb]]

/-- `analyzeFollowUp(messages)`: sub-score and reason (the `(0, "")` result
covers both the short-history early return and the non-assistant case). -/
def analyzeFollowUp (messages : List Msg) : ℚ × String :=
  match messages.dropLast.getLast?, messages.getLast? with
  | some previousMessage, some lastUserMessage =>
    if previousMessage.role = "assistant" then
      let userContent := jsToLower lastUserMessage.content
      let aiContent := jsToLower previousMessage.content
      if strContains aiContent "?" || reTest aiQuestionRE aiContent then
        if strongFollowUpPatterns.any (reTest · userContent) then
          (9, "Strong response to AI's question")
        else
          (8, "Response following AI question")
      else if generalFollowUpPatterns.any (reTest · userContent) then
        (7, "Follow-up indicators to AI response")
      else
        (6, "Direct follow-up to AI message")
    else (0, "")
  | _, _ => (0, "")

/-- `analyzeContinuity(messages)`. -/
def analyzeContinuity (messages : List Msg) : ℚ × String :=
  if messages.length < 3 then (3, "Limited conversation history")
  else
    let userMessages := messages.filter (fun m => m.role = "user")
    let aiMessages := messages.filter (fun m => m.role = "assistant")
    if 0 < userMessages.length ∧ 0 < aiMessages.length then
      let ratio : ℚ :=
        ((min userMessages.length aiMessages.length : ℕ) : ℚ) /
          ((max userMessages.length aiMessages.length : ℕ) : ℚ)
      if 0.7 < ratio then (7, "Balanced conversational exchange")
      else if 0.4 < ratio then (5, "Moderate conversational exchange")
      else (3, "Unbalanced conversation flow")
    else (3, "Unbalanced conversation flow")

/-- `highEngagementPatterns`, in source order. -/
def highEngagementPatterns : List RE :=
  [anyWordB ["interesting", "fascinating", "amazing"],
   anyWordB ["tell me more", "explain", "elaborate"],
   .seqs [.wb, .lit "i", .alt (.lit "'d") (.lit " would"), .lit " like to",
     .wb],
   anyWordB ["what if", "hypothetically"],
   anyWordB ["by the way", "also", "btw"]]

/-- `mediumEngagementPatterns`, in source order (`\breally\?` has no closing
word boundary: `?` is not a word character). -/
def mediumEngagementPatterns : List RE :=
  [.alt (.seqs [.wb, .lit "really?"])
     (.alt (.seqs [.wb, .lit "seriously?"]) (.seqs [.wb, .lit "is that so?"])),
   anyWordB ["huh", "hmm", "interesting"],
   anyWordB ["i think", "i believe", "in my opinion"]]

/-- `analyzeEngagement(messages)`. -/
def analyzeEngagement (messages : List Msg) : ℚ × String :=
  match messages.getLast? with
  | none => (0, "")
  | some lastMessage =>
    let content := jsToLower lastMessage.content
    if highEngagementPatterns.any (reTest · content) then
      (7, "High engagement indicators")
    else if mediumEngagementPatterns.any (reTest · content) then
      (5, "Moderate engagement indicators")
    else (0, "")

/-- `analyzeConversationGaps(messages)`: consecutive user turns. -/
def analyzeConversationGaps (messages : List Msg) : ℚ × String :=
  match messages.dropLast.getLast?, messages.getLast? with
  | some previousMessage, some lastMessage =>
    if previousMessage.role = "user" ∧ lastMessage.role = "user" then
      (6, "Multiple consecutive user messages (expecting response)")
    else (0, "")
  | _, _ => (0, "")

/-- `analyzeTopicCoherence(messages)`: word overlap (words longer than 3
characters) between the last turn and the prior two turns
(`messages.slice(-3, -1)`). -/
def analyzeTopicCoherence (messages : List Msg) : ℚ × String :=
  if messages.length < 3 then (0, "")
  else
    match messages.getLast? with
    | none => (0, "")
    | some last =>
      let lastMessage := jsToLower last.content
      let previousMessages := (takeLast 3 messages).dropLast
      let lastWords := dedupFirst
        (((splitWsChars lastMessage.data).map fun w => (⟨w⟩ : String)).filter
          fun w => 3 < w.length)
      let overlapFound := previousMessages.any fun prevMsg =>
        let prevWords := dedupFirst
          (((splitWsChars (jsToLower prevMsg.content).data).map
              fun w => (⟨w⟩ : String)).filter fun w => 3 < w.length)
        lastWords.any fun w => prevWords.contains w
      if overlapFound then (6, "Topic coherence with previous messages")
      else (0, "")

/-- `analyze(messages)`: the five sub-scores, maximum of the firing ones
(neutral 4 when none fire). -/
def analyze (messages : List Msg) : AnalyzerResult :=
  match lastMsg? messages with
  | none => { score := 0, reasoning := "No messages to analyze", confidence := 1 }
  | some lastMessage =>
    if lastMessage.role ≠ "user" then
      { score := 0, reasoning := "Last message is not from user", confidence := 1 }
    else
      let recentMessages := takeLast maxHistoryLength messages
      let subScores :=
        [analyzeFollowUp recentMessages,
         analyzeContinuity recentMessages,
         analyzeEngagement recentMessages,
         analyzeConversationGaps recentMessages,
         analyzeTopicCoherence recentMessages]
      let positives := subScores.filter fun s => 0 < s.1
      let flowIndicators := positives.map (·.2)
      let score := (positives.map (·.1)).foldl max 0
      let src : ℚ × String × ℚ :=
        if flowIndicators.length = 0 then
          (4, "No clear conversational flow indicators", 0.5)
        else
          (score,
            "Flow indicators: " ++
              String.intercalate ", " (flowIndicators.take 2),
            min 1 (0.6 + (flowIndicators.length : ℚ) * 0.1))
      { score := max 0 (min 10 src.1), reasoning := src.2.1,
        confidence := src.2.2 }

end ConversationalFlowAnalyzer

/-! ## SemanticSimilarityModule (Topical Similarity Analyzer)

Source: `semanticSimilarityModule.js`.  Its cosine-like approximation is
`intersection / (√|words1| · √|words2|)`, an irrational number; it is only
ever compared against positive constants, so the embedding keeps the three
integers and decides the comparisons exactly (`cosineGt`). -/

namespace SemanticSimilarityModule

/-- Constructor configuration with the source defaults
(`similarityThreshold` is stored by the constructor but never read by
`analyze`). -/
structure Config where
  baseWeight : ℚ := 0.05
  similarityThreshold : ℚ := 0.3
  minMessagesForFullWeight : ℕ := 6
  minWeight : ℚ := 0.01
deriving DecidableEq

def defaultConfig : Config := {}

/-- `findLastAiMessage(messages)`: scan indices `length-2 … 0` for the most
recent assistant message. -/
def findLastAiMessage (messages : List Msg) : Option Msg :=
  messages.dropLast.reverse.find? fun m => m.role = "assistant"

/-- The stop-word list, transcribed verbatim (including the duplicated
`"her"`, harmless for membership). -/
def stopWords : List String :=
  ["the", "a", "an", "and", "or", "but", "in", "on", "at", "to", "for", "of",
   "with", "by", "is", "are", "was", "were", "be", "been", "have", "has",
   "had", "do", "does", "did", "will", "would", "could", "should", "may",
   "might", "can", "i", "you", "he", "she", "it", "we", "they", "me", "him",
   "her", "us", "them", "my", "your", "his", "her", "its", "our", "their",
   "this", "that", "these", "those"]

/-- `extractKeywords(text)`: non-word non-space characters become spaces,
split on whitespace, lowercase, keep words longer than 2 that are not stop
words, as a set (insertion order). -/
def extractKeywords (text : String) : List String :=
  let cleaned := text.data.map fun c =>
    if isWordChar c || isWsChar c then c else ' '
  let words :=
    (((splitWsChars cleaned).map fun w =>
        (⟨w.map Char.toLower⟩ : String)).filter fun w =>
      2 < w.length && !stopWords.contains w)
  dedupFirst words

/-- The `calculateSimilarity` result: exact Jaccard index, plus the three
cardinalities determining the cosine approximation
`interCard / (√card1 · √card2)`. -/
structure Similarity where
  jaccard : ℚ
  interCard : ℕ
  card1 : ℕ
  card2 : ℕ
  sharedKeywords : List String
deriving DecidableEq

/-- `calculateSimilarity(text1, text2)`. -/
def calculateSimilarity (text1 text2 : String) : Similarity :=
  let words1 := extractKeywords text1
  let words2 := extractKeywords text2
  let intersection := words1.filter fun w => words2.contains w
  let union := dedupFirst (words1 ++ words2)
  { jaccard :=
      if 0 < union.length then
        (intersection.length : ℚ) / (union.length : ℚ)
      else 0,
    interCard := intersection.length,
    card1 := words1.length,
    card2 := words2.length,
    sharedKeywords := intersection }

/-- Decides `calculateCosineSimilarity(words1, words2) > c` exactly for
`0 ≤ c`: the cosine value is `interCard / (√card1 · √card2)` and `0` when a
magnitude is zero, and for nonnegative `c` and positive cardinalities the
comparison squares to `c² · card1 · card2 < interCard²`. -/
def cosineGt (s : Similarity) (c : ℚ) : Bool :=
  if s.card1 = 0 || s.card2 = 0 then decide ((0 : ℚ) > c)
  else decide (c ^ 2 * (s.card1 : ℚ) * (s.card2 : ℚ) < (s.interCard : ℚ) ^ 2)

/-- The fixed theme dictionaries, in source spread order. -/
def themeDicts : List (String × List String) :=
  [("food", ["food", "eat", "eating", "cook", "cooking", "meal", "dish",
     "recipe"]),
   ("japanese-food", ["japanese", "sushi", "ramen", "tempura", "miso",
     "sake", "wasabi"]),
   ("cooking", ["cook", "cooking", "bake", "baking", "prepare", "kitchen",
     "chef"]),
   ("technology", ["tech", "computer", "software", "app", "digital",
     "online"]),
   ("programming", ["code", "coding", "program", "development", "api",
     "function"]),
   ("learning", ["learn", "learning", "study", "education", "tutorial",
     "guide"]),
   ("help", ["help", "assist", "support", "advice", "guidance", "tips"])]

/-- `extractThemes(text)`: substring matching against the dictionaries. -/
def extractThemes (text : String) : List String :=
  let lowerText := jsToLower text
  (themeDicts.filter fun t =>
    t.2.any fun keyword => strContains lowerText keyword).map (·.1)

/-- `/\b[A-Z][a-z]+\b/g` -/
def capitalizedRE : RE :=
  .seqs [.wb, .cls (fun c => 'A' ≤ c && c ≤ 'Z'),
    .many1 (fun c => 'a' ≤ c && c ≤ 'z'), .wb]

/-- `/"([^"]+)"/g` -/
def quotedRE : RE :=
  .seqs [.cls (· = '"'), .many1 (· ≠ '"'), .cls (· = '"')]

/-- `/\b\w+[-_]\w+\b/g` -/
def compoundRE : RE :=
  .seqs [.wb, word1, .cls (fun c => c = '-' || c = '_'), word1, .wb]

/-- `extractTopics(text)`: capitalized words, quoted phrases (quotes
stripped) and compound words, lowercased, deduplicated. -/
def extractTopics (text : String) : List String :=
  let capitalizedWords := (reFindAll capitalizedRE text).map jsToLower
  let quotedPhrases := (reFindAll quotedRE text).map fun p =>
    jsToLower ⟨p.data.filter (· ≠ '"')⟩
  let compoundWords := (reFindAll compoundRE text).map jsToLower
  dedupFirst (capitalizedWords ++ quotedPhrases ++ compoundWords)

/-- `analyzeTopicalRelevance(userText, aiText)`. -/
def analyzeTopicalRelevance (userText aiText : String) : ℚ × String :=
  let aiTopics := extractTopics aiText
  let userTopics := extractTopics userText
  let aiThemes := extractThemes aiText
  let userThemes := extractThemes userText
  let topicOverlap := aiTopics.filter fun topic =>
    userTopics.any fun userTopic =>
      strContains userTopic topic || strContains topic userTopic
  let themeOverlap := aiThemes.filter fun theme =>
    userThemes.any fun userTheme => userTheme = theme
  if 0 < topicOverlap.length then
    (min 8 (5 + (topicOverlap.length : ℚ)),
      "Direct topical relevance: shared topics (" ++
        String.intercalate ", " (topicOverlap.take 2) ++ ")")
  else if 0 < themeOverlap.length then
    (min 7 (4 + (themeOverlap.length : ℚ)),
      "Thematic relevance: related themes (" ++
        String.intercalate ", " (themeOverlap.take 2) ++ ")")
  else (0, "")

/-- `referencePatterns`, in source order. -/
def referencePatterns : List RE :=
  [.seqs [.wb, .lit "that", .wb, .many dotCls, .wb,
     .words ["you", "said", "mentioned", "told", "suggested"], .wb],
   .seqs [.wb, .lit "your", ws1,
     .words ["answer", "response", "suggestion", "recommendation", "idea"],
     .wb],
   .seqs [.wb, .lit "what", ws1, .lit "you", ws1,
     .words ["said", "mentioned", "told", "suggested"], .wb],
   .seqs [.wb, .lit "as", ws1, .lit "you", ws1,
     .words ["said", "mentioned", "suggested"], .wb],
   .seqs [.wb, .lit "like", ws1, .lit "you", ws1,
     .words ["said", "mentioned", "suggested"], .wb],
   .seqs [.wb, .lit "about", ws1, .lit "what", ws1, .lit "you", .wb],
   .seqs [.wb, .lit "in", ws1, .lit "your", ws1, .words ["last", "previous"],
     ws1, .words ["message", "response"], .wb]]

/-- `demonstrativePatterns`, in source order. -/
def demonstrativePatterns : List RE :=
  [.seqs [.wb, .lit "that", ws1, .words ["is", "was", "seems", "sounds"], .wb],
   .seqs [.wb, .lit "this", ws1, .words ["is", "was", "seems", "sounds"], .wb],
   .seqs [.wb, .lit "those", ws1, .words ["are", "were", "seem", "sound"], .wb],
   .seqs [.wb, .lit "these", ws1, .words ["are", "were", "seem", "sound"], .wb]]

/-- `analyzeReferences(userText, aiText)` (the second argument is unused in
the source as well). -/
def analyzeReferences (userText _aiText : String) : ℚ × String :=
  if referencePatterns.any (reTest · userText) then
    (8, "Direct reference to AI's previous message")
  else if demonstrativePatterns.any (reTest · userText) then
    (5, "Potential reference to AI content (demonstrative pronouns)")
  else (0, "")

/-- `calculateDynamicWeight(conversationLength)`. -/
def calculateDynamicWeight (cfg : Config) (conversationLength : ℕ) : ℚ :=
  if conversationLength ≤ 2 then cfg.minWeight
  else if conversationLength ≤ 4 then cfg.baseWeight * 0.5
  else if conversationLength < cfg.minMessagesForFullWeight then
    let progress : ℚ := ((conversationLength : ℚ) - 4) /
      ((cfg.minMessagesForFullWeight : ℚ) - 4)
    cfg.baseWeight * (0.5 + 0.5 * progress)
  else cfg.baseWeight

/-- `analyze(messages)`.  In the first tier the source sets
`score = Math.min(3, score)` while `score` is still `0`, hence `min 3 0`. -/
def analyze (cfg : Config) (messages : List Msg) : AnalyzerResult :=
  match lastMsg? messages with
  | none => { score := 0, reasoning := "No messages to analyze", confidence := 1 }
  | some lastMessage =>
    if lastMessage.role ≠ "user" then
      { score := 0, reasoning := "Last message is not from user", confidence := 1 }
    else
      let conversationLength := messages.length
      let dynamicWeight := calculateDynamicWeight cfg conversationLength
      match findLastAiMessage messages with
      | none =>
        { score := if conversationLength ≤ 2 then 1 else 3,
          reasoning := "No previous AI message to compare (conversation too short: "
            ++ toString conversationLength ++ " messages)",
          confidence := 0.5,
          adjustedWeight? := some dynamicWeight }
      | some lastAiMessage =>
        let userContent := jsToLower lastMessage.content
        let aiContent := jsToLower lastAiMessage.content
        let similarity := calculateSimilarity userContent aiContent
        let topicalRelevance := analyzeTopicalRelevance userContent aiContent
        let referenceAnalysis := analyzeReferences userContent aiContent
        let src : ℚ × String × ℚ :=
          if conversationLength ≤ 2 then
            (min 3 0,
              "Short conversation (" ++ toString conversationLength ++
                " messages) - semantic similarity less reliable", 0.3)
          else if conversationLength ≤ 4 then
            if 0.4 < similarity.jaccard || cosineGt similarity 0.5 then
              (6, "Moderate semantic similarity in short conversation (" ++
                toString conversationLength ++ " messages)", 0.6)
            else if 6 < topicalRelevance.1 then
              (min 6 topicalRelevance.1,
                topicalRelevance.2 ++ " (short conversation: " ++
                  toString conversationLength ++ " messages)", 0.5)
            else if 0 < referenceAnalysis.1 then
              (referenceAnalysis.1, referenceAnalysis.2, 0.7)
            else
              (1, "Low semantic similarity in short conversation (" ++
                toString conversationLength ++ " messages)", 0.4)
          else
            if 0.4 < similarity.jaccard || cosineGt similarity 0.5 then
              (8, "High semantic similarity to previous AI message", 0.9)
            else if 0.2 < similarity.jaccard || cosineGt similarity 0.3 then
              (6, "Moderate semantic similarity to previous AI message", 0.8)
            else if 6 < topicalRelevance.1 then
              (topicalRelevance.1, topicalRelevance.2, 0.7)
            else if 0 < referenceAnalysis.1 then
              (referenceAnalysis.1, referenceAnalysis.2, 0.8)
            else
              (2, "Low semantic similarity to previous AI message", 0.6)
        { score := max 0 (min 10 src.1), reasoning := src.2.1,
          confidence := src.2.2, adjustedWeight? := some dynamicWeight }

end SemanticSimilarityModule

/-! ## LLMMetaJudge (Model-Judge Analyzer)

Source: `llmMetaJudge.js`.  The outbound chat-completion call and the
`JSON.parse` of the cleaned response text are external effects, provided to
the embedding as the oracle `LlmNet`: `.fail` means the call threw (network
failure), `.ok response parsed` means the call returned `response` and
`parsed` is the outcome of `JSON.parse` on the cleaned response (`none` when
it threw).  Prompt construction (`prepareConversationContext`,
`buildAnalysisPrompt`, `getSystemPrompt`) only shapes the outbound request
and is absorbed by the oracle; `cleanResponse` only feeds `JSON.parse` and
is likewise absorbed in `parsed`. -/

/-- Case-insensitive prefix test (for the JS `i` flag). -/
def startsWithCI : List Char → List Char → Bool
  | _, [] => true
  | [], _ :: _ => false
  | c :: cs, d :: ds => c.toLower = d.toLower && startsWithCI cs ds

/-- Maximal digit run and the remainder. -/
def takeDigits (l : List Char) : List Char × List Char :=
  (l.takeWhile (·.isDigit), l.dropWhile (·.isDigit))

/-- Numeric value of a digit run. -/
def digitsToNat (ds : List Char) : ℕ :=
  ds.foldl (fun n c => n * 10 + (c.toNat - '0'.toNat)) 0

/-- Parse `\d+(?:\.\d+)?` at the head of the list (greedy; when a bare `.`
follows the integer digits the optional group fails and only `\d+` is
matched, as in JS), returning the `parseFloat` of the match. -/
def parseNumFrom (l : List Char) : Option ℚ :=
  match takeDigits l with
  | ([], _) => none
  | (ds, rest) =>
    match rest with
    | '.' :: rest2 =>
      match takeDigits rest2 with
      | ([], _) => some (digitsToNat ds : ℚ)
      | (fs, _) =>
        some ((digitsToNat ds : ℚ) +
          (digitsToNat fs : ℚ) / (10 : ℚ) ^ fs.length)
    | _ => some (digitsToNat ds : ℚ)

/-- The `[:=\s]` class of the fallback-extraction patterns. -/
def isKeyFillChar (c : Char) : Bool :=
  c = ':' || c = '=' || isWsChar c

/-- Leftmost match of `(?:k₁|k₂|…)[:=\s]*(\d+(?:\.\d+)?)` with the `i` flag,
returning the captured number.  The fill class contains no digit, so the
greedy fill run never has to backtrack once a digit follows it; when no
digit follows, the whole attempt at this start position fails and the scan
advances one character, as the JS engine does. -/
def numAfterKeys (keys : List String) : List Char → Option ℚ
  | [] => none
  | c :: cs =>
    let tryHere : Option ℚ :=
      match keys.find? fun k => startsWithCI (c :: cs) k.data with
      | some k =>
        parseNumFrom (((c :: cs).drop k.data.length).dropWhile
          (isKeyFillChar ·))
      | none => none
    match tryHere with
    | some v => some v
    | none => numAfterKeys keys cs

/-- The lazy `(.+?)(?:\n|$)` step: `.` cannot match a line terminator, so
the only candidate capture is the maximal `.`-run, and the character after
it must be `\n` or the end of input. -/
def captureLine (rest : List Char) : Option (List Char) :=
  match rest with
  | [] => none
  | c :: _ =>
    if dotCls c then
      let cap := rest.takeWhile (dotCls ·)
      match rest.drop cap.length with
      | [] => some cap
      | '\n' :: _ => some cap
      | _ => none
    else none

/-- Backtracking of the greedy `[:=\s]*` run before `(.+?)(?:\n|$)`: try the
full run first, then give characters back one at a time. -/
def fillBacktrack : List Char → List Char → Option (List Char)
  | [], rest => captureLine rest
  | c :: revRun, rest =>
    match captureLine rest with
    | some cap => some cap
    | none => fillBacktrack revRun (c :: rest)

/-- Leftmost match of `(?:k₁|k₂|…)[:=\s]*(.+?)(?:\n|$)` with the `i` flag,
returning the captured text. -/
def reasonAfterKeys (keys : List String) : List Char → Option (List Char)
  | [] => none
  | c :: cs =>
    let tryHere : Option (List Char) :=
      match keys.find? fun k => startsWithCI (c :: cs) k.data with
      | some k =>
        let after := (c :: cs).drop k.data.length
        let run := after.takeWhile (isKeyFillChar ·)
        fillBacktrack run.reverse (after.drop run.length)
      | none => none
    match tryHere with
    | some v => some v
    | none => reasonAfterKeys keys cs

namespace LLMMetaJudge

/-- The fields of a successfully `JSON.parse`d response that `parseResponse`
reads; a field that is absent (or of the wrong shape) is `none`. -/
structure LlmJson where
  score? : Option ℚ := none
  reasoning? : Option String := none
  confidence? : Option ℚ := none
deriving DecidableEq

/-- Oracle for the external chat-completion call (see the section header). -/
inductive LlmNet where
  | fail : LlmNet
  | ok : String → Option LlmJson → LlmNet
deriving DecidableEq

/-- JS `x || d` for an optional numeric field (absent and `0` are falsy). -/
def jsOrNum (x : Option ℚ) (d : ℚ) : ℚ :=
  match x with
  | some v => if v = 0 then d else v
  | none => d

/-- JS `x || d` for an optional string field (absent and `""` are falsy). -/
def jsOrStr (x : Option String) (d : String) : String :=
  match x with
  | some s => if s = "" then d else s
  | none => d

/-- `parseResponse(response)`: primary structured path when `JSON.parse`
succeeded, pattern-matching fallback when it threw; numeric fields clamped
to `[1,10]` and `[0.1,1.0]` on both paths. -/
def parseResponse (response : String) (parsed : Option LlmJson) :
    AnalyzerResult :=
  match parsed with
  | some jsonResponse =>
    let score := jsOrNum jsonResponse.score? 5.0
    let reasoning := jsOrStr jsonResponse.reasoning? "LLM analysis provided"
    let confidence := jsOrNum jsonResponse.confidence? 0.7
    { score := max 1 (min 10 score),
      reasoning := "LLM Meta-Judge: " ++ reasoning,
      confidence := max 0.1 (min 1 confidence) }
  | none =>
    let score := (numAfterKeys ["score", "rating"] response.data).getD 5.0
    let reasoning :=
      match reasonAfterKeys ["reasoning", "explanation", "because"]
          response.data with
      | some cap => jsTrim ⟨cap⟩
      | none => "Unable to parse detailed reasoning"
    let confidence := (numAfterKeys ["confidence"] response.data).getD 0.5
    { score := max 1 (min 10 score),
      reasoning := "LLM Meta-Judge: " ++ reasoning,
      confidence := max 0.1 (min 1 confidence) }

/-- `analyze(messages)`: input guards, then the guarded network call whose
`catch` yields the neutral score-5 fallback. -/
def analyze (messages : List Msg) (net : LlmNet) : AnalyzerResult :=
  match lastMsg? messages with
  | none => { score := 0, reasoning := "No messages to analyze", confidence := 1 }
  | some lastMessage =>
    if lastMessage.role ≠ "user" then
      { score := 0, reasoning := "Last message is not from user", confidence := 1 }
    else
      match net with
      | .fail =>
        { score := 5.0,
          reasoning := "LLM analysis failed - using neutral score",
          confidence := 0.3 }
      | .ok response parsed => parseResponse response parsed

end LLMMetaJudge

/-! ## RelevanceOrchestrator (Scoring Orchestrator)

Source: `relevanceOrchestrator.js` part of `conversationalFlowAnalyzer.js`'s
bundle.  Constructor defaults: `aiName "Mirai"`, weights
`nameMention 0.30`, `pronounSyntax 0.25`, `conversationalFlow 0.20`,
`semanticSimilarity 0.05`, `llmMetaJudge 0.20`; `enableLLMMetaJudge` is on.
The `messages` argument of `calculateWeightedScore` is only read by a
`console.log` and is therefore dropped; `generateReasoning` only produces
explanatory text (no claim concerns it) and is not modelled.  The analyzers
are total functions here, so the per-analyzer `catch` fallbacks of the
fan-out stage and of the judge invocation are unreachable in the embedding. -/

namespace RelevanceOrchestrator

/-- An analyzer result together with the `name`/`weight` fields the
orchestrator spreads onto it. -/
structure HResult where
  name : String
  weight : ℚ
  score : ℚ
  reasoning : String
  confidence : ℚ
  adjustedWeight? : Option ℚ
deriving DecidableEq

/-- `{name, weight, ...result}`. -/
def toH (name : String) (weight : ℚ) (r : AnalyzerResult) : HResult :=
  { name := name, weight := weight, score := r.score,
    reasoning := r.reasoning, confidence := r.confidence,
    adjustedWeight? := r.adjustedWeight? }

def aiName : String := "Mirai"

/-- The fast fan-out: the four cheap analyzers with their configured
weights, in source order. -/
def fastResultsOf (messages : List Msg) : List HResult :=
  [toH "NameMentionHeuristic" 0.30
    (NameMentionHeuristic.analyze aiName NameMentionHeuristic.defaultAliases
      messages),
   toH "PronounSyntaxHeuristic" 0.25 (PronounSyntaxHeuristic.analyze messages),
   toH "ConversationalFlowAnalyzer" 0.20
    (ConversationalFlowAnalyzer.analyze messages),
   toH "SemanticSimilarityModule" 0.05
    (SemanticSimilarityModule.analyze SemanticSimilarityModule.defaultConfig
      messages)]

/-- The per-result weight adjustment of `calculateWeightedScore`: the
semantic module's emitted dynamic weight replaces its base weight, and a
strongly positive name-mention result is damped by the mean score of the
other analyzers (excluding the semantic module). -/
def adjustedWeightOf (results : List HResult) (r : HResult) : ℚ :=
  let aw0 := jsOr r.weight 0
  let aw1 :=
    if r.name = "SemanticSimilarityModule" ∧ r.adjustedWeight?.isSome then
      r.adjustedWeight?.getD aw0
    else aw0
  if r.name = "NameMentionHeuristic" ∧ 8 ≤ r.score then
    let otherScores :=
      (results.filter fun x =>
        x.name != "NameMentionHeuristic" &&
          x.name != "SemanticSimilarityModule").map fun x => jsOr x.score 0
    let avgOtherScore :=
      if 0 < otherScores.length then
        otherScores.sum / (otherScores.length : ℚ)
      else 5
    if avgOtherScore < 4 then aw1 * 0.3
    else if avgOtherScore < 6 then aw1 * 0.7
    else aw1
  else aw1

/-- The clarity bonus of `calculateWeightedScore`: `+1.0` when the
name-mention result scores at least 10 with confidence at least 0.8 and the
pronoun/syntax result scores at least 6. -/
def clarityBonus (results : List HResult) : ℚ :=
  match results.find? fun r => r.name = "NameMentionHeuristic",
        results.find? fun r => r.name = "PronounSyntaxHeuristic" with
  | some nameMentionResult, some pronounResult =>
    if 10 ≤ nameMentionResult.score ∧ 6 ≤ pronounResult.score ∧
        0.8 ≤ nameMentionResult.confidence then 1.0
    else 0
  | _, _ => 0

/-- The confidence-weighted average of `calculateWeightedScore`: each
result contributes with effective weight `adjustedWeight × confidence`
(`score || 0`, `confidence || 1.0`); zero total weight yields 0. -/
def fusionBase (results : List HResult) : ℚ :=
  let totalScore :=
    (results.map fun r =>
      jsOr r.score 0 * (adjustedWeightOf results r * jsOr r.confidence 1)).sum
  let totalWeight :=
    (results.map fun r => adjustedWeightOf results r * jsOr r.confidence 1).sum
  if 0 < totalWeight then totalScore / totalWeight else 0

/-- `calculateWeightedScore(results)`: base average plus clarity bonus,
capped at 10. -/
def calculateWeightedScore (results : List HResult) : ℚ :=
  min 10 (fusionBase results + clarityBonus results)

/-- The first condition of `shouldRunLLMMetaJudge`: name mentioned directly
(score ≥ 8) and pronoun/syntax suggests a question (score ≥ 6). -/
def directNameQuestionOverride (fastResults : List HResult) : Bool :=
  match fastResults.find? fun r => r.name = "NameMentionHeuristic",
        fastResults.find? fun r => r.name = "PronounSyntaxHeuristic" with
  | some nameMentionResult, some pronounResult =>
    8 ≤ nameMentionResult.score ∧ 6 ≤ pronounResult.score
  | _, _ => false

/-- `shouldRunLLMMetaJudge(fastResults, fastScore)`, with the source's
decision order: name+question override, ≥ 8.5 skip, the [3,8] band,
disagreement > 4, mean confidence < 0.6, otherwise skip.  On the empty
result list JS produces `-∞ > 4` and `NaN < 0.6`, both false, mirrored by
the emptiness guards. -/
def shouldRunLLMMetaJudge (fastResults : List HResult) (fastScore : ℚ) :
    Bool :=
  if directNameQuestionOverride fastResults then true
  else if 8.5 ≤ fastScore then false
  else if 3 ≤ fastScore ∧ fastScore ≤ 8 then true
  else
    let scores := fastResults.map (·.score)
    let disagree : Bool :=
      match scores with
      | [] => false
      | s :: ss => decide (4 < ss.foldl max s - ss.foldl min s)
    if disagree then true
    else
      let avgConfidence :=
        (fastResults.map fun r => jsOr r.confidence 0.7).sum /
          (fastResults.length : ℚ)
      if fastResults.length ≠ 0 ∧ avgConfidence < 0.6 then true
      else false

/-- The observable outcome of `analyzeRelevance`: the clamped final score
and the `details` fields the claims mention. -/
structure RelevanceOutcome where
  score : ℚ
  llmUsed : Bool
  fastScore : ℚ
  finalScore : ℚ
deriving DecidableEq

/-- `analyzeRelevance(messages)`: fast fan-out, preliminary fusion, the
judge decision, optional judge invocation, final fusion, and the final
`[1,10]` clamp.  The empty-conversation early return is
`{score: 0, reasoning: …}` (no details). -/
def analyzeRelevance (messages : List Msg) (net : LLMMetaJudge.LlmNet) :
    RelevanceOutcome :=
  if messages = [] then
    { score := 0, llmUsed := false, fastScore := 0, finalScore := 0 }
  else
    let fastResults := fastResultsOf messages
    let fastScore := calculateWeightedScore fastResults
    let shouldRunLLM := shouldRunLLMMetaJudge fastResults fastScore
    let llmResult? :=
      if shouldRunLLM then
        some (toH "LLMMetaJudge" 0.20 (LLMMetaJudge.analyze messages net))
      else none
    let allResults := fastResults ++
      (match llmResult? with | some l => [l] | none => [])
    let finalScore := calculateWeightedScore allResults
    { score := max 1 (min 10 finalScore),
      llmUsed := llmResult?.isSome,
      fastScore := fastScore,
      finalScore := finalScore }

end RelevanceOrchestrator

/-! ## Helper lemmas -/

theorem clamp0_mem (s : ℚ) : 0 ≤ max 0 (min 10 s) ∧ max 0 (min 10 s) ≤ 10 :=
  ⟨le_max_left 0 _, max_le (by norm_num) (min_le_left 10 s)⟩

theorem clamp1_mem (s : ℚ) : 1 ≤ max 1 (min 10 s) ∧ max 1 (min 10 s) ≤ 10 :=
  ⟨le_max_left 1 _, max_le (by norm_num) (min_le_left 10 s)⟩

theorem nm_score_clamped (aiName : String) (aliases : List String)
    (messages : List Msg) :
    0 ≤ (NameMentionHeuristic.analyze aiName aliases messages).score ∧
      (NameMentionHeuristic.analyze aiName aliases messages).score ≤ 10 := by
  unfold NameMentionHeuristic.analyze
  cases lastMsg? messages with
  | none => exact ⟨le_refl 0, by norm_num⟩
  | some m =>
    dsimp only
    split
    · exact ⟨le_refl 0, by norm_num⟩
    · exact clamp0_mem _

theorem ps_score_clamped (messages : List Msg) :
    0 ≤ (PronounSyntaxHeuristic.analyze messages).score ∧
      (PronounSyntaxHeuristic.analyze messages).score ≤ 10 := by
  unfold PronounSyntaxHeuristic.analyze
  cases lastMsg? messages with
  | none => exact ⟨le_refl 0, by norm_num⟩
  | some m =>
    dsimp only
    split
    · exact ⟨le_refl 0, by norm_num⟩
    · exact clamp0_mem _

theorem flow_score_clamped (messages : List Msg) :
    0 ≤ (ConversationalFlowAnalyzer.analyze messages).score ∧
      (ConversationalFlowAnalyzer.analyze messages).score ≤ 10 := by
  unfold ConversationalFlowAnalyzer.analyze
  cases lastMsg? messages with
  | none => exact ⟨le_refl 0, by norm_num⟩
  | some m =>
    dsimp only
    split
    · exact ⟨le_refl 0, by norm_num⟩
    · exact clamp0_mem _

theorem sem_score_clamped (cfg : SemanticSimilarityModule.Config)
    (messages : List Msg) :
    0 ≤ (SemanticSimilarityModule.analyze cfg messages).score ∧
      (SemanticSimilarityModule.analyze cfg messages).score ≤ 10 := by
  unfold SemanticSimilarityModule.analyze
  cases lastMsg? messages with
  | none => exact ⟨le_refl 0, by norm_num⟩
  | some m =>
    dsimp only
    split
    · exact ⟨le_refl 0, by norm_num⟩
    · cases SemanticSimilarityModule.findLastAiMessage messages with
      | none =>
        dsimp only
        split <;> norm_num
      | some ai => exact clamp0_mem _

theorem parseResponse_score_clamped (response : String)
    (parsed : Option LLMMetaJudge.LlmJson) :
    1 ≤ (LLMMetaJudge.parseResponse response parsed).score ∧
      (LLMMetaJudge.parseResponse response parsed).score ≤ 10 := by
  unfold LLMMetaJudge.parseResponse
  cases parsed <;> exact clamp1_mem _

theorem parseResponse_conf_clamped (response : String)
    (parsed : Option LLMMetaJudge.LlmJson) :
    0.1 ≤ (LLMMetaJudge.parseResponse response parsed).confidence ∧
      (LLMMetaJudge.parseResponse response parsed).confidence ≤ 1 := by
  unfold LLMMetaJudge.parseResponse
  cases parsed <;>
    exact ⟨le_max_left _ _, max_le (by norm_num) (min_le_left 1 _)⟩

theorem llm_score_clamped (messages : List Msg) (net : LLMMetaJudge.LlmNet) :
    0 ≤ (LLMMetaJudge.analyze messages net).score ∧
      (LLMMetaJudge.analyze messages net).score ≤ 10 := by
  unfold LLMMetaJudge.analyze
  cases lastMsg? messages with
  | none => exact ⟨le_refl 0, by norm_num⟩
  | some m =>
    dsimp only
    split
    · exact ⟨le_refl 0, by norm_num⟩
    · cases net with
      | fail => norm_num
      | ok response parsed =>
        have h := parseResponse_score_clamped response parsed
        exact ⟨le_trans (by norm_num) h.1, h.2⟩

theorem orchestrator_score_clamped (messages : List Msg)
    (net : LLMMetaJudge.LlmNet) (h : messages ≠ []) :
    1 ≤ (RelevanceOrchestrator.analyzeRelevance messages net).score ∧
      (RelevanceOrchestrator.analyzeRelevance messages net).score ≤ 10 := by
  unfold RelevanceOrchestrator.analyzeRelevance
  rw [if_neg h]
  exact clamp1_mem _

/-- Evaluation rule for `analyzeRelevance` when the judge decision comes
out false: the judge is skipped and the final fusion re-runs on the fast
results alone. -/
theorem analyzeRelevance_skip_eval (L : List RelevanceOrchestrator.HResult)
    (messages : List Msg) (net : LLMMetaJudge.LlmNet) (hne : messages ≠ [])
    (hfast : RelevanceOrchestrator.fastResultsOf messages = L)
    (hsr : RelevanceOrchestrator.shouldRunLLMMetaJudge L
      (RelevanceOrchestrator.calculateWeightedScore L) = false) :
    RelevanceOrchestrator.analyzeRelevance messages net =
      { score := max 1 (min 10
          (RelevanceOrchestrator.calculateWeightedScore (L ++ []))),
        llmUsed := false,
        fastScore := RelevanceOrchestrator.calculateWeightedScore L,
        finalScore :=
          RelevanceOrchestrator.calculateWeightedScore (L ++ []) } := by
  unfold RelevanceOrchestrator.analyzeRelevance
  rw [if_neg hne]
  simp only [hfast, hsr, Bool.false_eq_true, if_false, Option.isSome_none]

/-! ## Claim theorems -/

/-- C1: For every non-empty conversation, `analyzeRelevance` returns a final
score with `1 ≤ score ≤ 10` (the final clamp, applied after the clarity
bonus), and every individual analyzer's `analyze` (the four fast analyzers
and the model judge, for any configuration, conversation and network
outcome) returns a result whose score satisfies `0 ≤ score ≤ 10`. -/
theorem score_bounds_all_analyzers :
    (∀ (messages : List Msg) (net : LLMMetaJudge.LlmNet), messages ≠ [] →
      1 ≤ (RelevanceOrchestrator.analyzeRelevance messages net).score ∧
        (RelevanceOrchestrator.analyzeRelevance messages net).score ≤ 10) ∧
    (∀ (aiName : String) (aliases : List String) (messages : List Msg),
      0 ≤ (NameMentionHeuristic.analyze aiName aliases messages).score ∧
        (NameMentionHeuristic.analyze aiName aliases messages).score ≤ 10) ∧
    (∀ messages : List Msg,
      0 ≤ (PronounSyntaxHeuristic.analyze messages).score ∧
        (PronounSyntaxHeuristic.analyze messages).score ≤ 10) ∧
    (∀ messages : List Msg,
      0 ≤ (ConversationalFlowAnalyzer.analyze messages).score ∧
        (ConversationalFlowAnalyzer.analyze messages).score ≤ 10) ∧
    (∀ (cfg : SemanticSimilarityModule.Config) (messages : List Msg),
      0 ≤ (SemanticSimilarityModule.analyze cfg messages).score ∧
        (SemanticSimilarityModule.analyze cfg messages).score ≤ 10) ∧
    (∀ (messages : List Msg) (net : LLMMetaJudge.LlmNet),
      0 ≤ (LLMMetaJudge.analyze messages net).score ∧
        (LLMMetaJudge.analyze messages net).score ≤ 10) :=
  ⟨orchestrator_score_clamped, nm_score_clamped, ps_score_clamped,
    flow_score_clamped, sem_score_clamped, llm_score_clamped⟩

/-- Witness for C1 at a concrete conversation. -/
theorem score_bounds_all_analyzers_witness :
    (1 ≤ (RelevanceOrchestrator.analyzeRelevance [⟨"user", "x"⟩] .fail).score ∧
      (RelevanceOrchestrator.analyzeRelevance [⟨"user", "x"⟩] .fail).score ≤ 10) ∧
    (0 ≤ (LLMMetaJudge.analyze [⟨"user", "x"⟩] .fail).score ∧
      (LLMMetaJudge.analyze [⟨"user", "x"⟩] .fail).score ≤ 10) :=
  ⟨score_bounds_all_analyzers.1 [⟨"user", "x"⟩] .fail (by simp),
    score_bounds_all_analyzers.2.2.2.2.2 [⟨"user", "x"⟩] .fail⟩

/-- C10: For every non-empty conversation whose last message has role
`assistant`, each of the four fast analyzers returns score 0 with
confidence 1.0, the model judge is never invoked (the fast fused score is 0
with mean confidence 1.0), and `analyzeRelevance` returns exactly 1. -/
theorem assistant_last_neutral :
    ∀ (messages : List Msg) (net : LLMMetaJudge.LlmNet) (m : Msg),
      lastMsg? messages = some m → m.role = "assistant" →
      (NameMentionHeuristic.analyze RelevanceOrchestrator.aiName
          NameMentionHeuristic.defaultAliases messages =
        { score := 0, reasoning := "Last message is not from user",
          confidence := 1 }) ∧
      (PronounSyntaxHeuristic.analyze messages =
        { score := 0, reasoning := "Last message is not from user",
          confidence := 1 }) ∧
      (ConversationalFlowAnalyzer.analyze messages =
        { score := 0, reasoning := "Last message is not from user",
          confidence := 1 }) ∧
      (SemanticSimilarityModule.analyze SemanticSimilarityModule.defaultConfig
          messages =
        { score := 0, reasoning := "Last message is not from user",
          confidence := 1 }) ∧
      (RelevanceOrchestrator.analyzeRelevance messages net).llmUsed = false ∧
      (RelevanceOrchestrator.analyzeRelevance messages net).fastScore = 0 ∧
      (RelevanceOrchestrator.analyzeRelevance messages net).score = 1 := by
  intro messages net m hlast hrole
  have hne : messages ≠ [] := by
    intro h
    rw [h] at hlast
    simp [lastMsg?] at hlast
  have hcond : m.role ≠ "user" := by
    rw [hrole]; decide
  have hnm : NameMentionHeuristic.analyze RelevanceOrchestrator.aiName
      NameMentionHeuristic.defaultAliases messages =
      { score := 0, reasoning := "Last message is not from user",
        confidence := 1 } := by
    unfold NameMentionHeuristic.analyze
    rw [hlast]
    dsimp only
    rw [if_pos hcond]
  have hps : PronounSyntaxHeuristic.analyze messages =
      { score := 0, reasoning := "Last message is not from user",
        confidence := 1 } := by
    unfold PronounSyntaxHeuristic.analyze
    rw [hlast]
    dsimp only
    rw [if_pos hcond]
  have hfl : ConversationalFlowAnalyzer.analyze messages =
      { score := 0, reasoning := "Last message is not from user",
        confidence := 1 } := by
    unfold ConversationalFlowAnalyzer.analyze
    rw [hlast]
    dsimp only
    rw [if_pos hcond]
  have hsem : SemanticSimilarityModule.analyze
      SemanticSimilarityModule.defaultConfig messages =
      { score := 0, reasoning := "Last message is not from user",
        confidence := 1 } := by
    unfold SemanticSimilarityModule.analyze
    rw [hlast]
    dsimp only
    rw [if_pos hcond]
  have hfast : RelevanceOrchestrator.fastResultsOf messages =
      [RelevanceOrchestrator.toH "NameMentionHeuristic" 0.30
        { score := 0, reasoning := "Last message is not from user",
          confidence := 1 },
       RelevanceOrchestrator.toH "PronounSyntaxHeuristic" 0.25
        { score := 0, reasoning := "Last message is not from user",
          confidence := 1 },
       RelevanceOrchestrator.toH "ConversationalFlowAnalyzer" 0.20
        { score := 0, reasoning := "Last message is not from user",
          confidence := 1 },
       RelevanceOrchestrator.toH "SemanticSimilarityModule" 0.05
        { score := 0, reasoning := "Last message is not from user",
          confidence := 1 }] := by
    unfold RelevanceOrchestrator.fastResultsOf
    rw [hnm, hps, hfl, hsem]
  have hout := analyzeRelevance_skip_eval _ messages net hne hfast (by decide)
  refine ⟨hnm, hps, hfl, hsem, ?_, ?_, ?_⟩ <;> rw [hout] <;> decide

/-- Witness for C10 at a concrete conversation. -/
theorem assistant_last_neutral_witness :
    (RelevanceOrchestrator.analyzeRelevance [⟨"assistant", "hello"⟩]
      .fail).score = 1 ∧
    (RelevanceOrchestrator.analyzeRelevance [⟨"assistant", "hello"⟩]
      .fail).llmUsed = false :=
  ⟨(assistant_last_neutral [⟨"assistant", "hello"⟩] .fail
      ⟨"assistant", "hello"⟩ rfl rfl).2.2.2.2.2.2,
   (assistant_last_neutral [⟨"assistant", "hello"⟩] .fail
      ⟨"assistant", "hello"⟩ rfl rfl).2.2.2.2.1⟩

/-- C3: For every set of fast-analyzer results, a fast fused score of at
least 8.5 without the direct-name-plus-question override means the judge is
skipped, and a fast fused score of exactly 5.0 always invokes the judge. -/
theorem judge_invocation_boundary :
    ∀ (fastResults : List RelevanceOrchestrator.HResult) (fastScore : ℚ),
      (RelevanceOrchestrator.directNameQuestionOverride fastResults = false →
        8.5 ≤ fastScore →
        RelevanceOrchestrator.shouldRunLLMMetaJudge fastResults fastScore =
          false) ∧
      (fastScore = 5 →
        RelevanceOrchestrator.shouldRunLLMMetaJudge fastResults fastScore =
          true) := by
  intro fastResults fastScore
  constructor
  · intro hov hge
    unfold RelevanceOrchestrator.shouldRunLLMMetaJudge
    rw [hov]
    simp only [Bool.false_eq_true, if_false]
    rw [if_pos hge]
  · intro h5
    subst h5
    unfold RelevanceOrchestrator.shouldRunLLMMetaJudge
    by_cases hov :
        RelevanceOrchestrator.directNameQuestionOverride fastResults = true
    · rw [if_pos hov]
    · rw [if_neg hov, if_neg (by norm_num : ¬(8.5 : ℚ) ≤ 5),
        if_pos (by norm_num : (3 : ℚ) ≤ 5 ∧ (5 : ℚ) ≤ 8)]

/-- Witness for C3 at concrete inputs. -/
theorem judge_invocation_boundary_witness :
    RelevanceOrchestrator.shouldRunLLMMetaJudge [] 9 = false ∧
    RelevanceOrchestrator.shouldRunLLMMetaJudge [] 5 = true :=
  ⟨(judge_invocation_boundary [] 9).1 (by decide) (by norm_num),
   (judge_invocation_boundary [] 5).2 rfl⟩

/-- C2 counterexample: with NameMention score 10 and PronounSyntax score 9
the override condition (a) holds, and at fast score 9 (≥ 8.5) the judge is
still invoked — the source checks (a) first, so the ≥ 8.5 skip does *not*
take precedence as the claim states. -/
theorem override_beats_skip_cex :
    (8.5 : ℚ) ≤ 9 ∧
    RelevanceOrchestrator.shouldRunLLMMetaJudge
      [⟨"NameMentionHeuristic", 0.30, 10, "", 1, none⟩,
       ⟨"PronounSyntaxHeuristic", 0.25, 9, "", 1, none⟩] 9 = true := by
  constructor
  · norm_num
  · decide

/-- C2 amended: the name-plus-question override takes precedence over the
fast-score skip: whenever condition (a) holds the judge runs regardless of
the fused score, and the ≥ 8.5 skip applies only when (a) fails. -/
theorem override_beats_skip :
    ∀ (fastResults : List RelevanceOrchestrator.HResult) (fastScore : ℚ),
      (RelevanceOrchestrator.directNameQuestionOverride fastResults = true →
        RelevanceOrchestrator.shouldRunLLMMetaJudge fastResults fastScore =
          true) ∧
      (RelevanceOrchestrator.directNameQuestionOverride fastResults = false →
        8.5 ≤ fastScore →
        RelevanceOrchestrator.shouldRunLLMMetaJudge fastResults fastScore =
          false) := by
  intro fastResults fastScore
  constructor
  · intro hov
    unfold RelevanceOrchestrator.shouldRunLLMMetaJudge
    rw [if_pos hov]
  · intro hov hge
    unfold RelevanceOrchestrator.shouldRunLLMMetaJudge
    rw [hov]
    simp only [Bool.false_eq_true, if_false]
    rw [if_pos hge]

/-- Witness for C2's amended statement at concrete inputs. -/
theorem override_beats_skip_witness :
    RelevanceOrchestrator.shouldRunLLMMetaJudge
      [⟨"NameMentionHeuristic", 0.30, 10, "", 1, none⟩,
       ⟨"PronounSyntaxHeuristic", 0.25, 9, "", 1, none⟩] 10 = true ∧
    RelevanceOrchestrator.shouldRunLLMMetaJudge [] 10 = false :=
  ⟨(override_beats_skip
      [⟨"NameMentionHeuristic", 0.30, 10, "", 1, none⟩,
       ⟨"PronounSyntaxHeuristic", 0.25, 9, "", 1, none⟩] 10).1 (by decide),
   (override_beats_skip [] 10).2 (by decide) (by norm_num)⟩

theorem jsOr_zero (x : ℚ) : jsOr x 0 = x := by
  unfold jsOr
  split
  · exact (by assumption : x = 0).symm
  · rfl

/-- C5: During weighted fusion, a NameMention result scoring at least 8 has
its weight multiplied by 0.3 when the mean score of the other fast
analyzers excluding the semantic module (here PronounSyntax and
ConversationalFlow) is below 4, by 0.7 when that mean is below 6, and left
unchanged otherwise. -/
theorem name_mention_damping :
    ∀ (nm ps fl sem : RelevanceOrchestrator.HResult),
      nm.name = "NameMentionHeuristic" →
      ps.name = "PronounSyntaxHeuristic" →
      fl.name = "ConversationalFlowAnalyzer" →
      sem.name = "SemanticSimilarityModule" →
      8 ≤ nm.score →
      (((jsOr ps.score 0 + jsOr fl.score 0) / 2 < 4 →
        RelevanceOrchestrator.adjustedWeightOf [nm, ps, fl, sem] nm =
          nm.weight * 0.3) ∧
       (4 ≤ (jsOr ps.score 0 + jsOr fl.score 0) / 2 →
        (jsOr ps.score 0 + jsOr fl.score 0) / 2 < 6 →
        RelevanceOrchestrator.adjustedWeightOf [nm, ps, fl, sem] nm =
          nm.weight * 0.7) ∧
       (6 ≤ (jsOr ps.score 0 + jsOr fl.score 0) / 2 →
        RelevanceOrchestrator.adjustedWeightOf [nm, ps, fl, sem] nm =
          nm.weight)) := by
  intro nm ps fl sem hnm hps hfl hsem hscore
  have hfilter : (([nm, ps, fl, sem] :
      List RelevanceOrchestrator.HResult).filter fun x =>
        x.name != "NameMentionHeuristic" &&
          x.name != "SemanticSimilarityModule") = [ps, fl] := by
    simp +decide [List.filter, hnm, hps, hfl, hsem]
  have heval : RelevanceOrchestrator.adjustedWeightOf [nm, ps, fl, sem] nm =
      if (jsOr ps.score 0 + jsOr fl.score 0) / 2 < 4 then nm.weight * 0.3
      else if (jsOr ps.score 0 + jsOr fl.score 0) / 2 < 6 then
        nm.weight * 0.7
      else nm.weight := by
    unfold RelevanceOrchestrator.adjustedWeightOf
    rw [hfilter]
    simp +decide only [hnm, hscore, jsOr_zero, List.map, List.sum_cons,
      List.sum_nil, List.length, if_pos, and_true, if_true]
    norm_num
  refine ⟨?_, ?_, ?_⟩
  · intro h4
    rw [heval, if_pos h4]
  · intro h4 h6
    rw [heval, if_neg (not_lt.mpr h4), if_pos h6]
  · intro h6
    rw [heval, if_neg (not_lt.mpr (le_trans (by norm_num) h6)),
      if_neg (not_lt.mpr h6)]

/-- Witness for C5: all three damping cases at concrete results. -/
theorem name_mention_damping_witness :
    RelevanceOrchestrator.adjustedWeightOf
      [⟨"NameMentionHeuristic", 1, 8, "", 1, none⟩,
       ⟨"PronounSyntaxHeuristic", 0.25, 0, "", 1, none⟩,
       ⟨"ConversationalFlowAnalyzer", 0.20, 0, "", 1, none⟩,
       ⟨"SemanticSimilarityModule", 0.05, 0, "", 1, none⟩]
      ⟨"NameMentionHeuristic", 1, 8, "", 1, none⟩ = (1 : ℚ) * 0.3 ∧
    RelevanceOrchestrator.adjustedWeightOf
      [⟨"NameMentionHeuristic", 1, 8, "", 1, none⟩,
       ⟨"PronounSyntaxHeuristic", 0.25, 5, "", 1, none⟩,
       ⟨"ConversationalFlowAnalyzer", 0.20, 5, "", 1, none⟩,
       ⟨"SemanticSimilarityModule", 0.05, 0, "", 1, none⟩]
      ⟨"NameMentionHeuristic", 1, 8, "", 1, none⟩ = (1 : ℚ) * 0.7 ∧
    RelevanceOrchestrator.adjustedWeightOf
      [⟨"NameMentionHeuristic", 1, 8, "", 1, none⟩,
       ⟨"PronounSyntaxHeuristic", 0.25, 6, "", 1, none⟩,
       ⟨"ConversationalFlowAnalyzer", 0.20, 6, "", 1, none⟩,
       ⟨"SemanticSimilarityModule", 0.05, 0, "", 1, none⟩]
      ⟨"NameMentionHeuristic", 1, 8, "", 1, none⟩ = (1 : ℚ) :=
  ⟨(name_mention_damping _ _ _ _ rfl rfl rfl rfl (by norm_num)).1
      (by decide),
   (name_mention_damping _ _ _ _ rfl rfl rfl rfl (by norm_num)).2.1
      (by decide) (by decide),
   (name_mention_damping _ _ _ _ rfl rfl rfl rfl (by norm_num)).2.2
      (by decide)⟩

/-- C6: In final fusion the clarity bonus is exactly +1.0, and it is
granted if and only if the NameMention score equals 10 (scores never exceed
10, made explicit by the `nm.score ≤ 10` hypothesis) with confidence at
least 0.8 and the PronounSyntax score at least 6; the fused result after
the bonus is capped at 10.  The fused list is the four fast results
followed by an arbitrary tail `rest`, covering both shapes the final
fusion takes in `analyzeRelevance`: `rest = []` when the judge is skipped
and `rest = [judge result]` when it is invoked. -/
theorem clarity_bonus_iff :
    ∀ (nm ps fl sem : RelevanceOrchestrator.HResult)
      (rest : List RelevanceOrchestrator.HResult),
      nm.name = "NameMentionHeuristic" →
      ps.name = "PronounSyntaxHeuristic" →
      nm.score ≤ 10 →
      ((RelevanceOrchestrator.clarityBonus ([nm, ps, fl, sem] ++ rest) = 1 ↔
        (nm.score = 10 ∧ 0.8 ≤ nm.confidence ∧ 6 ≤ ps.score)) ∧
       (¬ (nm.score = 10 ∧ 0.8 ≤ nm.confidence ∧ 6 ≤ ps.score) →
        RelevanceOrchestrator.clarityBonus ([nm, ps, fl, sem] ++ rest) = 0) ∧
       RelevanceOrchestrator.calculateWeightedScore ([nm, ps, fl, sem] ++ rest)
         ≤ 10) := by
  intro nm ps fl sem rest hnm hps hle
  have hfind : RelevanceOrchestrator.clarityBonus ([nm, ps, fl, sem] ++ rest) =
      if 10 ≤ nm.score ∧ 6 ≤ ps.score ∧ 0.8 ≤ nm.confidence then 1 else 0 := by
    unfold RelevanceOrchestrator.clarityBonus
    simp +decide [List.cons_append, List.nil_append, List.find?, hnm, hps]
    split <;> norm_num
  have hiff : (10 ≤ nm.score ∧ 6 ≤ ps.score ∧ 0.8 ≤ nm.confidence) ↔
      (nm.score = 10 ∧ 0.8 ≤ nm.confidence ∧ 6 ≤ ps.score) := by
    constructor
    · rintro ⟨h1, h2, h3⟩
      exact ⟨le_antisymm hle h1, h3, h2⟩
    · rintro ⟨h1, h2, h3⟩
      exact ⟨le_of_eq h1.symm, h3, h2⟩
  refine ⟨?_, ?_, min_le_left _ _⟩
  · rw [hfind]
    constructor
    · intro h1
      by_cases hc : 10 ≤ nm.score ∧ 6 ≤ ps.score ∧ 0.8 ≤ nm.confidence
      · exact hiff.mp hc
      · rw [if_neg hc] at h1
        norm_num at h1
    · intro hc
      rw [if_pos (hiff.mpr hc)]
  · intro hc
    rw [hfind, if_neg (fun h => hc (hiff.mp h))]

/-- Witness for C6: bonus granted at a maximal-agreement result set, in
the five-element final fusion that includes the judge's result, and the cap
on that same fused list. -/
theorem clarity_bonus_iff_witness :
    RelevanceOrchestrator.clarityBonus
      ([⟨"NameMentionHeuristic", 0.30, 10, "", 1, none⟩,
        ⟨"PronounSyntaxHeuristic", 0.25, 6, "", 1, none⟩,
        ⟨"ConversationalFlowAnalyzer", 0.20, 3, "", 1, none⟩,
        ⟨"SemanticSimilarityModule", 0.05, 1, "", 1, none⟩] ++
       [⟨"LLMMetaJudge", 0.20, 9, "", 0.9, none⟩]) = 1 ∧
    RelevanceOrchestrator.calculateWeightedScore
      ([⟨"NameMentionHeuristic", 0.30, 10, "", 1, none⟩,
        ⟨"PronounSyntaxHeuristic", 0.25, 6, "", 1, none⟩,
        ⟨"ConversationalFlowAnalyzer", 0.20, 3, "", 1, none⟩,
        ⟨"SemanticSimilarityModule", 0.05, 1, "", 1, none⟩] ++
       [⟨"LLMMetaJudge", 0.20, 9, "", 0.9, none⟩]) ≤ 10 :=
  ⟨((clarity_bonus_iff _ _ _ _
      [⟨"LLMMetaJudge", 0.20, 9, "", 0.9, none⟩] rfl rfl (by norm_num)).1).mpr
      (by refine ⟨rfl, by norm_num, by norm_num⟩),
   (clarity_bonus_iff
      ⟨"NameMentionHeuristic", 0.30, 10, "", 1, none⟩
      ⟨"PronounSyntaxHeuristic", 0.25, 6, "", 1, none⟩
      ⟨"ConversationalFlowAnalyzer", 0.20, 3, "", 1, none⟩
      ⟨"SemanticSimilarityModule", 0.05, 1, "", 1, none⟩
      [⟨"LLMMetaJudge", 0.20, 9, "", 0.9, none⟩]
      rfl rfl (by norm_num)).2.2⟩

theorem dynW_const_of_six_le (n : ℕ) (h : 6 ≤ n) :
    SemanticSimilarityModule.calculateDynamicWeight
      SemanticSimilarityModule.defaultConfig n =
      SemanticSimilarityModule.defaultConfig.baseWeight := by
  unfold SemanticSimilarityModule.calculateDynamicWeight
  have h6 : SemanticSimilarityModule.defaultConfig.minMessagesForFullWeight
      = 6 := rfl
  rw [h6]
  rw [if_neg (by omega), if_neg (by omega), if_neg (by omega)]

/-- C7: Under the default configuration (minimum weight 0.01, half weight
up to 4 messages, full-weight turn count 6), the semantic module's dynamic
weight is non-decreasing in the conversation length `n ≥ 1` and equals the
base weight from the full-weight turn count onwards; in particular it is
non-decreasing from 1 up to the full-weight count and constant beyond. -/
theorem dynamic_weight_ramp :
    (∀ n : ℕ, 1 ≤ n →
      SemanticSimilarityModule.calculateDynamicWeight
          SemanticSimilarityModule.defaultConfig n ≤
        SemanticSimilarityModule.calculateDynamicWeight
          SemanticSimilarityModule.defaultConfig (n + 1)) ∧
    (∀ n : ℕ, 6 ≤ n →
      SemanticSimilarityModule.calculateDynamicWeight
          SemanticSimilarityModule.defaultConfig n =
        SemanticSimilarityModule.defaultConfig.baseWeight) := by
  constructor
  · intro n h1
    by_cases h6 : 6 ≤ n
    · rw [dynW_const_of_six_le n h6, dynW_const_of_six_le (n + 1) (by omega)]
    · have h5 : n ≤ 5 := by omega
      interval_cases n <;> decide
  · exact dynW_const_of_six_le

/-- Witness for C7 at concrete conversation lengths. -/
theorem dynamic_weight_ramp_witness :
    SemanticSimilarityModule.calculateDynamicWeight
        SemanticSimilarityModule.defaultConfig 2 ≤
      SemanticSimilarityModule.calculateDynamicWeight
        SemanticSimilarityModule.defaultConfig 3 ∧
    SemanticSimilarityModule.calculateDynamicWeight
        SemanticSimilarityModule.defaultConfig 7 =
      SemanticSimilarityModule.defaultConfig.baseWeight :=
  ⟨dynamic_weight_ramp.1 2 (by norm_num), dynamic_weight_ramp.2 7 (by norm_num)⟩

/-- C9 counterexample: a three-message all-user conversation has no prior
assistant turn, yet the semantic module returns score 3, refuting "score at
most 1 regardless of conversation length". -/
theorem semantic_no_ai_cex :
    (SemanticSimilarityModule.analyze SemanticSimilarityModule.defaultConfig
      [⟨"user", "a"⟩, ⟨"user", "b"⟩, ⟨"user", "c"⟩]).score = 3 ∧
    ¬ ((SemanticSimilarityModule.analyze SemanticSimilarityModule.defaultConfig
      [⟨"user", "a"⟩, ⟨"user", "b"⟩, ⟨"user", "c"⟩]).score ≤ 1) := by
  decide

/-- C9 amended: when the last message is from the user and no assistant
message precedes it, the semantic module returns score 1 for conversations
of at most 2 messages and score 3 otherwise, with confidence 0.5 and the
dynamic weight attached. -/
theorem semantic_no_prior_ai :
    ∀ (cfg : SemanticSimilarityModule.Config) (messages : List Msg) (m : Msg),
      lastMsg? messages = some m → m.role = "user" →
      SemanticSimilarityModule.findLastAiMessage messages = none →
      (SemanticSimilarityModule.analyze cfg messages).score =
        (if messages.length ≤ 2 then 1 else 3) ∧
      (SemanticSimilarityModule.analyze cfg messages).confidence = 0.5 ∧
      (SemanticSimilarityModule.analyze cfg messages).adjustedWeight? =
        some (SemanticSimilarityModule.calculateDynamicWeight cfg
          messages.length) := by
  intro cfg messages m hlast hrole hnoai
  unfold SemanticSimilarityModule.analyze
  rw [hlast]
  dsimp only
  rw [if_neg (by rw [hrole]; simp : ¬ m.role ≠ "user"), hnoai]
  exact ⟨rfl, rfl, rfl⟩

/-- Witness for C9's amended statement at a one-message conversation. -/
theorem semantic_no_prior_ai_witness :
    (SemanticSimilarityModule.analyze SemanticSimilarityModule.defaultConfig
      [⟨"user", "a"⟩]).confidence = 0.5 :=
  (semantic_no_prior_ai SemanticSimilarityModule.defaultConfig
    [⟨"user", "a"⟩] ⟨"user", "a"⟩ rfl rfl (by decide)).2.1

/-- C8 counterexample: for the unparsable response "score: 8" (JSON.parse
throws) the judge does not return the claimed neutral 5.0/0.3 fallback: the
pattern-matching fallback extracts score 8 with default confidence 0.5. -/
theorem llm_parse_fallback_cex :
    (LLMMetaJudge.analyze [⟨"user", "hi"⟩] (.ok "score: 8" none)).score = 8 ∧
    ¬ ((LLMMetaJudge.analyze [⟨"user", "hi"⟩]
          (.ok "score: 8" none)).score = 5 ∧
       (LLMMetaJudge.analyze [⟨"user", "hi"⟩]
          (.ok "score: 8" none)).confidence = 0.3) := by
  decide

/-- C8 amended: the judge's `analyze` never propagates an error: a network
failure yields exactly the neutral result (score 5.0, confidence 0.3,
reasoning stating the failure); a parsing failure of the model response
instead falls back to pattern extraction whose score is clamped to [1,10]
and confidence to [0.1,1.0] (defaulting to 5.0 and 0.5 when nothing is
extractable). -/
theorem llm_failure_handling :
    (∀ (messages : List Msg) (m : Msg), lastMsg? messages = some m →
      m.role = "user" →
      LLMMetaJudge.analyze messages .fail =
        { score := 5,
          reasoning := "LLM analysis failed - using neutral score",
          confidence := 0.3 }) ∧
    (∀ (messages : List Msg) (m : Msg) (response : String),
      lastMsg? messages = some m → m.role = "user" →
      LLMMetaJudge.analyze messages (.ok response none) =
        LLMMetaJudge.parseResponse response none) ∧
    (∀ (response : String) (parsed : Option LLMMetaJudge.LlmJson),
      1 ≤ (LLMMetaJudge.parseResponse response parsed).score ∧
      (LLMMetaJudge.parseResponse response parsed).score ≤ 10 ∧
      0.1 ≤ (LLMMetaJudge.parseResponse response parsed).confidence ∧
      (LLMMetaJudge.parseResponse response parsed).confidence ≤ 1) ∧
    (∀ response : String,
      numAfterKeys ["score", "rating"] response.data = none →
      (LLMMetaJudge.parseResponse response none).score = 5) ∧
    (∀ response : String,
      numAfterKeys ["confidence"] response.data = none →
      (LLMMetaJudge.parseResponse response none).confidence = 0.5) := by
  refine ⟨?_, ?_, ?_, ?_, ?_⟩
  · intro messages m hlast hrole
    unfold LLMMetaJudge.analyze
    rw [hlast]
    dsimp only
    rw [if_neg (by rw [hrole]; simp : ¬ m.role ≠ "user")]
    norm_num
  · intro messages m response hlast hrole
    unfold LLMMetaJudge.analyze
    rw [hlast]
    dsimp only
    rw [if_neg (by rw [hrole]; simp : ¬ m.role ≠ "user")]
  · intro response parsed
    have h1 := parseResponse_score_clamped response parsed
    have h2 := parseResponse_conf_clamped response parsed
    exact ⟨h1.1, h1.2, h2.1, h2.2⟩
  · intro response hnone
    unfold LLMMetaJudge.parseResponse
    rw [hnone]
    norm_num
  · intro response hnone
    unfold LLMMetaJudge.parseResponse
    rw [hnone]
    norm_num

/-- Witness for C8's amended statement at concrete inputs. -/
theorem llm_failure_handling_witness :
    LLMMetaJudge.analyze [⟨"user", "hi"⟩] .fail =
      { score := 5,
        reasoning := "LLM analysis failed - using neutral score",
        confidence := 0.3 } ∧
    (LLMMetaJudge.parseResponse "gibberish" none).score = 5 :=
  ⟨llm_failure_handling.1 [⟨"user", "hi"⟩] ⟨"user", "hi"⟩ rfl rfl,
   llm_failure_handling.2.2.2.1 "gibberish" (by decide)⟩

/-- C4: For every conversation whose last message is from the user and
whose lowercased content matches a third-person pattern for the assistant's
name, the NameMention analyzer returns score 1 with confidence 0.9 — with
no assumption about the direct-address check, so the third-person branch
takes precedence whenever both would match; in particular the single user
message "Yeah, Mirai's been kinda useful actually. It's helped me keep
track of my stuff." scores 1. -/
theorem third_person_precedence :
    (∀ (aiName : String) (aliases : List String) (messages : List Msg)
        (m : Msg),
      lastMsg? messages = some m → m.role = "user" →
      NameMentionHeuristic.isThirdPersonReference aiName
        (jsToLower m.content) = true →
      (NameMentionHeuristic.analyze aiName aliases messages).score = 1 ∧
      (NameMentionHeuristic.analyze aiName aliases messages).confidence =
        0.9) ∧
    (NameMentionHeuristic.analyze "Mirai" NameMentionHeuristic.defaultAliases
      [⟨"user", "Yeah, Mirai's been kinda useful actually. It's helped me keep track of my stuff."⟩]).score
      = 1 := by
  constructor
  · intro aiName aliases messages m hlast hrole h3
    unfold NameMentionHeuristic.analyze
    rw [hlast]
    dsimp only
    rw [if_neg (by rw [hrole]; simp : ¬ m.role ≠ "user")]
    rw [if_pos h3]
    refine ⟨?_, rfl⟩
    norm_num
  · decide

/-- Witness for C4 applying the universal part to the concrete possessive
third-person message. -/
theorem third_person_precedence_witness :
    (NameMentionHeuristic.analyze "Mirai" NameMentionHeuristic.defaultAliases
      [⟨"user", "Yeah, Mirai's been kinda useful actually. It's helped me keep track of my stuff."⟩]).confidence
      = 0.9 :=
  (third_person_precedence.1 "Mirai" NameMentionHeuristic.defaultAliases
    [⟨"user", "Yeah, Mirai's been kinda useful actually. It's helped me keep track of my stuff."⟩]
    ⟨"user", "Yeah, Mirai's been kinda useful actually. It's helped me keep track of my stuff."⟩
    rfl rfl (by decide)).2
